import Mathlib

/-!
Verification of `promote.py`, a branch-promotion and release-minting tool.

The development shallowly embeds the program:

* the `semver` library functions the program calls (`parse_version_info`,
  `bump_major/minor/patch/prerelease`, `finalize_version`, comparison and
  `max`) are modelled after python-semver 2.x, whose behaviour the program
  relies on;
* `get_current_version`, `update_version`, `make_release_notes`,
  `check_diff`, `check_working_tree`, `commit` and the `__main__` flow are
  translated into pure Lean functions over an explicit model of the remote
  repository state (branch heads and reachable-commit histories), with
  Python exceptions rendered as `Option`/error results.
-/

namespace Promote

/-- Model of python-semver `VersionInfo`: a semantic version
`major.minor.patch` with optional prerelease and build labels kept as raw
strings (as the library does). -/
structure VersionInfo where
  major : Nat
  minor : Nat
  patch : Nat
  prerelease : Option String
  build : Option String
deriving DecidableEq, Repr

/-- Python `str.split(sep)` for a one-character separator, on char lists:
the accumulator holds the current field in reverse. -/
def splitCharAux (sep : Char) : List Char → List Char → List String
  | [], acc => [String.mk acc.reverse]
  | c :: cs, acc =>
    if c = sep then String.mk acc.reverse :: splitCharAux sep cs []
    else splitCharAux sep cs (c :: acc)

/-- Python `str.split(sep)` for a one-character separator (every separator
the program uses — `+`, `-`, `.`, newline — is one character). -/
def pySplit (sep : Char) (s : String) : List String :=
  splitCharAux sep s.toList []

/-- Python `int` on a string of decimal digits. -/
def digitsToNat (cs : List Char) : Nat :=
  cs.foldl (fun n c => n * 10 + (c.toNat - 48)) 0

/-- Whether the string starts with the given pattern (Python
`str.startswith`). -/
def listStartsWith : List Char → List Char → Bool
  | _, [] => true
  | [], _ :: _ => false
  | a :: as, b :: bs => a = b && listStartsWith as bs

/-- Characters allowed in prerelease/build identifiers: `[0-9A-Za-z-]`. -/
def isIdentChar (c : Char) : Bool := c.isAlphanum || c = '-'

/-- A numeric version component per the semver regex: `0` or a nonzero
digit string without leading zeros. -/
def numericIdToNat (s : String) : Option Nat :=
  let cs := s.toList
  if cs ≠ [] ∧ cs.all Char.isDigit ∧ (cs.length = 1 ∨ cs.headD '0' ≠ '0') then
    some (digitsToNat cs)
  else none

/-- A valid prerelease identifier per the semver regex: nonempty, drawn from
`[0-9A-Za-z-]`, and with no leading zero when purely numeric. -/
def validPreId (s : String) : Bool :=
  let cs := s.toList
  !cs.isEmpty && cs.all isIdentChar &&
    (if cs.all Char.isDigit then decide (cs.length = 1) || cs.headD '0' ≠ '0' else true)

/-- A valid build identifier per the semver regex: nonempty, drawn from
`[0-9A-Za-z-]` (leading zeros allowed). -/
def validBuildId (s : String) : Bool :=
  !s.toList.isEmpty && s.toList.all isIdentChar

/-- Model of `semver.parse_version_info` (python-semver 2.x): parse
`major.minor.patch[-prerelease][+build]` against the semver regex, `none`
modelling the `ValueError` the library raises on malformed input. The build
part follows the first `+`; the prerelease part follows the first `-` of
the remaining core (hyphens may occur inside the prerelease itself). -/
def parse_version_info (s : String) : Option VersionInfo := do
  let (core, build) ←
    match pySplit '+' s with
    | [c] => some (c, (none : Option String))
    | [c, b] => some (c, some b)
    | _ => none
  match build with
  | some b => guard (((pySplit '.' b).all validBuildId) = true)
  | none => pure ()
  let (nums, pre) ←
    match pySplit '-' core with
    | [] => none
    | [n] => some (n, (none : Option String))
    | n :: rest => some (n, some (String.intercalate "-" rest))
  match pre with
  | some p => guard (((pySplit '.' p).all validPreId) = true)
  | none => pure ()
  match pySplit '.' nums with
  | [ma, mi, pa] => do
    let major ← numericIdToNat ma
    let minor ← numericIdToNat mi
    let patch ← numericIdToNat pa
    pure ⟨major, minor, patch, pre, build⟩
  | _ => none

/-- Rendering of a `VersionInfo` back to a string, as python-semver
`format_version`/`str` does. -/
def verStr (v : VersionInfo) : String :=
  toString v.major ++ "." ++ toString v.minor ++ "." ++ toString v.patch
    ++ (match v.prerelease with | some p => "-" ++ p | none => "")
    ++ (match v.build with | some b => "+" ++ b | none => "")

/-- Python string comparison: lexicographic by code point. -/
def charListCmp : List Char → List Char → Ordering
  | [], [] => .eq
  | [], _ :: _ => .lt
  | _ :: _, [] => .gt
  | a :: as, b :: bs =>
    if a.toNat < b.toNat then .lt
    else if b.toNat < a.toNat then .gt
    else charListCmp as bs

/-- Python `cmp` on strings. -/
def strCmp (a b : String) : Ordering := charListCmp a.toList b.toList

/-- Python `cmp` on naturals. -/
def natOrd (a b : Nat) : Ordering :=
  if a < b then .lt else if b < a then .gt else .eq

/-- One step of python-semver `_nat_cmp`: an identifier that is entirely
digits is compared as an integer (`int` tolerates leading zeros here), a
numeric identifier is smaller than an alphanumeric one, and two
alphanumeric identifiers compare as strings. -/
def preIdCmp (a b : String) : Ordering :=
  match (if !a.toList.isEmpty ∧ a.toList.all Char.isDigit then some (digitsToNat a.toList) else none),
        (if !b.toList.isEmpty ∧ b.toList.all Char.isDigit then some (digitsToNat b.toList) else none) with
  | some x, some y => natOrd x y
  | some _, none => .lt
  | none, some _ => .gt
  | none, none => strCmp a b

/-- Pairwise comparison of zipped prerelease identifier lists (the loop of
python-semver `_nat_cmp`); `eq` when one list runs out. -/
def preListCmp : List String → List String → Ordering
  | x :: xs, y :: ys =>
    match preIdCmp x y with
    | .eq => preListCmp xs ys
    | o => o
  | _, _ => .eq

/-- Model of python-semver `_nat_cmp` on the optional prerelease strings:
split on `.`, compare identifiers pairwise, and fall back to comparing the
raw string lengths (`cmp(len(a), len(b))`). -/
def natCmp (pa pb : Option String) : Ordering :=
  let a := pa.getD ""
  let b := pb.getD ""
  match preListCmp (pySplit '.' a) (pySplit '.' b) with
  | .eq => natOrd a.length b.length
  | o => o

/-- Model of python-semver `compare`: major, minor, patch numerically, then
a version with no prerelease is greater than one with a prerelease, and two
prereleases compare via `_nat_cmp`. Build metadata is ignored. -/
def semverCompare (v1 v2 : VersionInfo) : Ordering :=
  match natOrd v1.major v2.major with
  | .eq =>
    match natOrd v1.minor v2.minor with
    | .eq =>
      match natOrd v1.patch v2.patch with
      | .eq =>
        match v1.prerelease, v2.prerelease with
        | none, none => .eq
        | none, some _ => .gt
        | some _, none => .lt
        | some a, some b => natCmp (some a) (some b)
      | o => o
    | o => o
  | o => o

/-- Python `max` over a list of `VersionInfo`: iterate, replacing the
current candidate only when the next item is strictly greater, so the first
of several equal maxima wins; `none` models the `ValueError` that
`max([])` raises on an empty sequence. -/
def pymax (l : List VersionInfo) : Option VersionInfo :=
  match l with
  | [] => none
  | h :: t => some (t.foldl (fun acc v => if semverCompare v acc = .gt then v else acc) h)

/-- Model of python-semver `bump_major`: increment major, reset the rest. -/
def bump_major (s : String) : Option String :=
  (parse_version_info s).map (fun v => verStr ⟨v.major + 1, 0, 0, none, none⟩)

/-- Model of python-semver `bump_minor`: increment minor, reset patch and
drop prerelease/build. -/
def bump_minor (s : String) : Option String :=
  (parse_version_info s).map (fun v => verStr ⟨v.major, v.minor + 1, 0, none, none⟩)

/-- Model of python-semver `bump_patch`: increment patch, drop
prerelease/build. -/
def bump_patch (s : String) : Option String :=
  (parse_version_info s).map (fun v => verStr ⟨v.major, v.minor, v.patch + 1, none, none⟩)

/-- Model of python-semver `_increment_string`: find the last run of digits
in the string and increment it as an integer, the new digits right-aligned
over the old run (leading zeros in excess of the new width survive as
padding); a string with no digits is returned unchanged. -/
def incrementString (s : String) : String :=
  let rcs := s.toList.reverse
  let post := rcs.takeWhile (fun c => !c.isDigit)
  let rest := rcs.dropWhile (fun c => !c.isDigit)
  let digitsRev := rest.takeWhile Char.isDigit
  let preRev := rest.dropWhile Char.isDigit
  if digitsRev.isEmpty then s
  else
    let digits := digitsRev.reverse
    let next := toString (digitsToNat digits + 1)
    let keep := digits.length - next.length
    String.mk preRev.reverse ++ String.mk (digits.take keep) ++ next ++ String.mk post.reverse

/-- Model of python-semver `bump_prerelease(version, token)`: when the
version has a (truthy) prerelease, increment it with `_increment_string`;
otherwise seed it with `token + ".0"` and increment that, so a version
without a prerelease receives `token.1`. Build metadata is dropped. -/
def bump_prerelease (s : String) (token : String) : Option String :=
  (parse_version_info s).map (fun v =>
    let base :=
      match v.prerelease with
      | some p => if p = "" then token ++ ".0" else p
      | none => token ++ ".0"
    verStr ⟨v.major, v.minor, v.patch, some (incrementString base), none⟩)

/-- Model of python-semver `finalize_version`: keep `major.minor.patch`,
drop prerelease and build. -/
def finalize_version (s : String) : Option String :=
  (parse_version_info s).map (fun v => verStr ⟨v.major, v.minor, v.patch, none, none⟩)

/-- Parse every tag of the release listing, as the comprehensions in
`get_current_version` do: `none` when any tag fails to parse, modelling the
`ValueError` that escapes the comprehension (there is no try/except around
it, so one malformed tag aborts the whole listing). -/
def parseAll : List String → Option (List VersionInfo)
  | [] => some []
  | t :: ts =>
    match parse_version_info t with
    | none => none
    | some v =>
      match parseAll ts with
      | none => none
      | some vs => some (v :: vs)

/-- The staging filter of `get_current_version`:
`pvi(tag).prerelease and pvi(tag).prerelease.startswith("rc")` — a truthy
prerelease label that starts with `rc`. -/
def qualifiesStaging (v : VersionInfo) : Bool :=
  match v.prerelease with
  | some p => !p.toList.isEmpty && listStartsWith p.toList ['r', 'c']
  | none => false

/-- The prod filter of `get_current_version`:
`not pvi(tag).prerelease` — no (truthy) prerelease label. -/
def qualifiesProd (v : VersionInfo) : Bool :=
  match v.prerelease with
  | some p => p = ""
  | none => true

/-- Model of `get_current_version(repo, _stage)` (promote.py lines
153-174): list the repository's releases (here: the list of their
`tag_name` strings), filter by stage, and return `str(max(versions))`.
`none` models the uncaught exceptions: a `ValueError` from
`parse_version_info` on a malformed tag, or `max([])` when releases exist
but none qualify. When the release list is empty (or the stage is neither
"staging" nor "prod") the initial `[VersionInfo(0, 0, 0)]` survives and the
result is "0.0.0". -/
def get_current_version (releases : List String) (stage : String) : Option String :=
  if releases ≠ [] ∧ stage = "staging" then
    match parseAll releases with
    | none => none
    | some vs =>
      match pymax (vs.filter qualifiesStaging) with
      | none => none
      | some m => some (verStr m)
  else if releases ≠ [] ∧ stage = "prod" then
    match parseAll releases with
    | none => none
    | some vs =>
      match pymax (vs.filter qualifiesProd) with
      | none => none
      | some m => some (verStr m)
  else
    some (verStr ⟨0, 0, 0, none, none⟩)

/-- Dispatch of `getattr(semver, f"bump_{cmd_args.release}")` applied to a
version string. For the "prerelease" kind the token argument is the
library default `"prerelease"` (promote.py line 189 passes no token).
`none` for any other kind models the `AttributeError`. -/
def bumpBy (kind s : String) : Option String :=
  if kind = "major" then bump_major s
  else if kind = "minor" then bump_minor s
  else if kind = "patch" then bump_patch s
  else if kind = "prerelease" then bump_prerelease s "prerelease"
  else none

/-- The non-production arm of `update_version` (promote.py lines 189-194):
apply the requested bump to the current version, then, when the bumped
version has no truthy prerelease label, run
`semver.bump_prerelease(_, token="rc")` on it. -/
def bump_and_attach (release cur : String) : Option String := do
  let b ← bumpBy release cur
  let bv ← parse_version_info b
  if (match bv.prerelease with | some p => p ≠ "" | none => false : Bool) then pure b
  else bump_prerelease b "rc"

/-- Outcome of `update_version`: `exit(0)` on "Nothing to promote", or the
new version string. -/
inductive UpdateOutcome
  | nothing
  | upgraded (v : String)
deriving DecidableEq, Repr

/-- Model of `update_version(repo, src, dst)` (promote.py lines 177-201):
`cur_version` is the current version for the invoked stage
(`cmd_args.stage`); when the configured source branch is "prod" the new
version is `finalize_version` of the current version for the stage named
by the destination branch, otherwise the current version is bumped and an
rc prerelease attached; equal strings mean `exit(0)`. `none` models any
uncaught exception from the version listing or bumping. -/
def update_version (releases : List String) (stage release src dst : String) :
    Option UpdateOutcome :=
  match get_current_version releases stage with
  | none => none
  | some cur =>
    match (if src = "prod" then
             match get_current_version releases dst with
             | none => none
             | some prv => finalize_version prv
           else
             bump_and_attach release cur) with
    | none => none
    | some newV => if cur = newV then some .nothing else some (.upgraded newV)

/-- Model of `make_release_notes` (promote.py lines 129-143) applied to the
raw stdout of `git log --pretty=format:"%s" origin/src...origin/dst`:
split on newlines and render each line as a bullet with its first and last
characters (the surrounding quotes) stripped, per `f"- {i[1:-1]}"`. -/
def make_release_notes (raw : String) : String :=
  String.intercalate "\n"
    ((pySplit '\n' raw).map (fun i => "- " ++ String.mk (i.toList.drop 1).dropLast))

/-- A branch of the repository: its head commit and the commits reachable
from the head (the head included). -/
structure Branch where
  head : String
  hist : List String
deriving DecidableEq, Repr

/-- The branches of the repository, shared between the local clone and the
remote `origin` (the model assumes the clone is in sync with the remote,
which holds in every scenario the claims describe). -/
abbrev Remote := List (String × Branch)

/-- Resolve a branch name. Also models git resolving `origin/{x}` (as in
`git checkout origin/{x}` and `git rev-parse origin/{x}`): that resolves
exactly when `x` names a branch — in particular a raw commit hash, or a
hash with a trailing newline, is not a branch name and does not resolve. -/
def lookupBranch (r : Remote) (name : String) : Option Branch :=
  (r.find? (fun p => p.1 = name)).map Prod.snd

/-- Force-push: set branch `name` to `b`, creating it when absent. -/
def setBranch (r : Remote) (name : String) (b : Branch) : Remote :=
  if r.any (fun p => p.1 = name) then
    r.map (fun p => if p.1 = name then (name, b) else p)
  else r ++ [(name, b)]

/-- Model of `commit(repo, src, dst)` (promote.py lines 146-151):
`git checkout origin/{src}` (detached), `git checkout -B dst`,
`git push --force origin dst`. Effect on the remote: branch `dst` is
force-pushed to the commit `origin/{src}` resolves to. `none` models the
`CalledProcessError` (from `check=True`) when `origin/{src}` does not
resolve; the push has not happened then, so the remote is unchanged. -/
def commitBranches (r : Remote) (src dst : String) : Option Remote :=
  (lookupBranch r src).map (fun b => setBranch r dst b)

/-- Stdout of `git rev-parse origin/{name}`: the head hash followed by the
newline git prints; `_subprocess` returns the decoded stdout without
stripping it (promote.py line 70), so the newline is kept. -/
def revParseOrigin (r : Remote) (name : String) : Option String :=
  (lookupBranch r name).map (fun b => b.head ++ "\n")

/-- Spec-side definition, following the claim's words: the set of commits
reachable from the destination branch but not from the source branch (the
commits a force-push of `dst` to `src` would discard). To be compared with
the `git log {src} ^{dst}` listing that `check_diff` actually runs. -/
def lostCommits (r : Remote) (dst src : String) : List String :=
  match lookupBranch r dst, lookupBranch r src with
  | some bd, some bs => bd.hist.filter (fun c => ¬ bs.hist.contains c)
  | _, _ => []

/-- One commit of the local HEAD history: its id, the paths it touches,
and whether it is a merge commit. Used to model the pathspec-filtered
`git log` that `check_diff` runs. -/
structure CommitInfo where
  id : String
  paths : List String
  isMerge : Bool
deriving DecidableEq, Repr

/-- Git pathspec matching for a literal pathspec (no magic signature): the
pathspec names the path itself or one of its leading directories. -/
def pathMatches (p s : String) : Bool :=
  p = s || listStartsWith p.toList (s ++ "/").toList

/-- Whether a commit touches a file matching the literal pathspec. -/
def touchesPathspec (c : CommitInfo) (s : String) : Bool :=
  c.paths.any (fun p => pathMatches p s)

/-- The command-line arguments after parsing (promote.py lines 22-44):
`release` is constrained by argparse to
`major|minor|patch|prerelease` and defaults to `"prerelease"` when the
flag is absent; `releaseNotesPath` is `--release-notes`. -/
structure CmdArgs where
  stage : String
  release : String
  force : Bool
  releaseNotesPath : Option String
  dryRun : Bool
deriving DecidableEq, Repr

/-- One entry of `config["release_map"]`: source branch, destination
branch, prerelease flag. -/
structure StageConfig where
  source : String
  destination : String
  prerelease : Bool
deriving DecidableEq, Repr

/-- The external world a run observes: the repository branches, the
commits reachable from the current HEAD of the local clone (with the
paths each touches), the stdout of
`git diff --ignore-submodules=untracked`, the raw stdout of the
release-notes `git log`, the release tags the GET request returns, and
whether the POST creating the release returns a 2xx status. -/
structure Env where
  remote : Remote
  headHist : List CommitInfo
  workingDiff : String
  rawLog : String
  releases : List String
  publishOk : Bool
deriving DecidableEq, Repr

/-- How the process ends: `exited n` for `exit(n)` or falling off the end
(`exited 0`), `raised` for an uncaught exception (the interpreter then
exits with a non-zero code). -/
inductive ExitKind
  | exited (code : Nat)
  | raised
deriving DecidableEq, Repr

/-- Observable outcome of a run: how the process ended, the final remote
branches, the content written to the `--release-notes` file (if any), and
the tag of the release the POST created (if any). -/
structure RunResult where
  exit : ExitKind
  remote : Remote
  notesFile : Option String
  created : Option String
deriving DecidableEq, Repr

/-- Model of the program from the line-54 guard through the `__main__`
block (promote.py lines 54-59 and 204-252), for a run whose stage resolves
to `cfg` in the config. In order: the prod/release-type guard
(`exit(1)`); `check_working_tree` (`exit(1)` on any diff output);
`check_diff`, which runs
`git log --graph --abbrev-commit --pretty=oneline --no-merges -- {src} ^{dst}`
— because of the `--` separator, `{src}` and `^{dst}` are *pathspecs*,
not revisions, so the listing is the non-merge commits of the current
HEAD history that touch a path named `{src}` or one named `^{dst}` — and
on non-empty output exits 1 unless `--force`; `make_release_notes`
(always writes the notes file when `--release-notes` is given);
`update_version`; the dry-run guard; then `git rev-parse origin/{dst}`,
`commit`, the POST, and on a non-2xx response the rollback
`commit(repo, old_branch, dst)` where `old_branch` is the unstripped
rev-parse output, followed by `raise ex`. -/
def runMain (env : Env) (args : CmdArgs) (cfg : StageConfig) : RunResult :=
  if args.stage = "prod" ∧ args.release ≠ "" then
    ⟨.exited 1, env.remote, none, none⟩
  else if env.workingDiff ≠ "" then
    ⟨.exited 1, env.remote, none, none⟩
  else
    if env.headHist.filter (fun c =>
         !c.isMerge &&
         (touchesPathspec c cfg.source || touchesPathspec c ("^" ++ cfg.destination))) ≠ [] ∧
       args.force = false then
      ⟨.exited 1, env.remote, none, none⟩
    else
      match update_version env.releases args.stage args.release cfg.source cfg.destination with
        | none =>
          ⟨.raised, env.remote,
           args.releaseNotesPath.map (fun _ => make_release_notes env.rawLog), none⟩
        | some .nothing =>
          ⟨.exited 0, env.remote,
           args.releaseNotesPath.map (fun _ => make_release_notes env.rawLog), none⟩
        | some (.upgraded newVersion) =>
          if args.dryRun then
            ⟨.exited 0, env.remote,
             args.releaseNotesPath.map (fun _ => make_release_notes env.rawLog), none⟩
          else
            match revParseOrigin env.remote cfg.destination with
            | none =>
              ⟨.raised, env.remote,
               args.releaseNotesPath.map (fun _ => make_release_notes env.rawLog), none⟩
            | some oldBranch =>
              match commitBranches env.remote cfg.source cfg.destination with
              | none =>
                ⟨.raised, env.remote,
                 args.releaseNotesPath.map (fun _ => make_release_notes env.rawLog), none⟩
              | some promoted =>
                if env.publishOk then
                  ⟨.exited 0, promoted,
                   args.releaseNotesPath.map (fun _ => make_release_notes env.rawLog),
                   some newVersion⟩
                else
                  match commitBranches promoted oldBranch cfg.destination with
                  | none =>
                    ⟨.raised, promoted,
                     args.releaseNotesPath.map (fun _ => make_release_notes env.rawLog), none⟩
                  | some rolledBack =>
                    ⟨.raised, rolledBack,
                     args.releaseNotesPath.map (fun _ => make_release_notes env.rawLog), none⟩

/-- Scenario for the publish-failure path: `integration` is one commit
ahead of `staging` (head `c2`, with `c1` the head of `staging`), the
checked-out HEAD history touches ordinary files (none named after a
branch), the tree is clean, the remote has a prior staging prerelease,
and the release POST returns a non-2xx status. -/
def env1 : Env :=
  ⟨[("integration", ⟨"c2", ["c2", "c1"]⟩), ("staging", ⟨"c1", ["c1"]⟩)],
   [⟨"c2", ["backend/app.py"], false⟩, ⟨"c1", ["README.md"], false⟩],
   "", "\"fix bug\"", ["1.0.0", "1.1.0-rc.0"], false⟩

/-- Arguments for the publish-failure scenario: a plain unforced staging
run. -/
def args1 : CmdArgs := ⟨"staging", "prerelease", false, none, false⟩

/-- Stage configuration promoting `integration` to `staging`. -/
def cfg1 : StageConfig := ⟨"integration", "staging", true⟩

/-- Scenario for the lost-commits check: the destination `staging` is
strictly ahead of the source `integration` (commit `c2` is reachable from
`staging` but not from `integration`), and the publish succeeds. -/
def env10 : Env :=
  ⟨[("integration", ⟨"c1", ["c1"]⟩), ("staging", ⟨"c2", ["c2", "c1"]⟩)],
   [⟨"c2", ["backend/app.py"], false⟩, ⟨"c1", ["README.md"], false⟩],
   "", "\"fix bug\"", ["1.0.0", "1.1.0-rc.0"], true⟩

/-- Arguments for the lost-commits scenario: no `--force`. -/
def args10 : CmdArgs := ⟨"staging", "prerelease", false, none, false⟩

/-- Environment for the stage-"prod" guard scenario. -/
def env2 : Env :=
  ⟨[("staging", ⟨"s1", ["s1"]⟩), ("prod", ⟨"p1", ["p1"]⟩)],
   [⟨"s1", ["src/api.py"], false⟩],
   "", "\"x\"", ["1.0.0", "1.2.0-rc.3"], true⟩

/-- Stage configuration promoting `staging` to `prod`. -/
def cfg2 : StageConfig := ⟨"staging", "prod", false⟩

/-- A small well-formed environment used by witnesses. -/
def envW : Env :=
  ⟨[("integration", ⟨"c2", ["c2", "c1"]⟩), ("staging", ⟨"c1", ["c1"]⟩)],
   [⟨"c2", ["backend/app.py"], false⟩, ⟨"c1", ["README.md"], false⟩],
   "", "\"fix bug\"", ["1.0.0", "1.1.0-rc.0"], true⟩

/-- Stage configuration used by witnesses. -/
def cfgW : StageConfig := ⟨"integration", "staging", true⟩

/-- The witness environment with a dirty working tree. -/
def envDirty : Env :=
  ⟨[("integration", ⟨"c2", ["c2", "c1"]⟩), ("staging", ⟨"c1", ["c1"]⟩)],
   [⟨"c2", ["backend/app.py"], false⟩, ⟨"c1", ["README.md"], false⟩],
   "diff --git a/f b/f", "\"fix bug\"", ["1.0.0", "1.1.0-rc.0"], true⟩

/-- Witness arguments: a forced dry run writing release notes. -/
def argsDry : CmdArgs := ⟨"staging", "prerelease", true, some "notes.txt", true⟩

/-- The result of the Python-max fold is one of the folded elements. -/
theorem foldl_pick_mem (t : List VersionInfo) (h : VersionInfo) :
    t.foldl (fun acc v => if semverCompare v acc = .gt then v else acc) h ∈ h :: t := by
  induction t generalizing h with
  | nil => exact List.mem_singleton.mpr rfl
  | cons x xs ih =>
    simp only [List.foldl_cons]
    by_cases hx : semverCompare x h = .gt
    · rw [if_pos hx]
      exact List.mem_cons_of_mem h (ih x)
    · rw [if_neg hx]
      rcases List.mem_cons.mp (ih h) with h1 | h1
      · rw [h1]
        exact List.mem_cons_self h (x :: xs)
      · exact List.mem_cons_of_mem h (List.mem_cons_of_mem x h1)

/-- Python `max` returns an element of its input list. -/
theorem pymax_mem {l : List VersionInfo} {m : VersionInfo} (hm : pymax l = some m) :
    m ∈ l := by
  cases l with
  | nil => cases hm
  | cons h t =>
    simp only [pymax, Option.some.injEq] at hm
    exact hm ▸ foldl_pick_mem t h

/-- One unparseable tag makes the whole listing parse fail. -/
theorem parseAll_none_of_mem {l : List String} {t : String} (ht : t ∈ l)
    (hp : parse_version_info t = none) : parseAll l = none := by
  induction l with
  | nil => cases ht
  | cons x xs ih =>
    rcases List.mem_cons.mp ht with rfl | hmem
    · simp [parseAll, hp]
    · unfold parseAll
      cases hx : parse_version_info x with
      | none => rfl
      | some v => rw [ih hmem]

/-- Claim C1: after a successful branch promotion, a non-2xx response to
the release POST is claimed to roll the destination branch back to its
pre-promotion commit and re-raise the publish error. In the scenario
`env1`/`args1`/`cfg1` the pre-promotion head of `staging` is `c1` (so the
captured `old_branch` is the rev-parse output `"c1\n"`), the promotion
moves `staging` to `c2`, the publish fails — and the run ends with an
uncaught exception while `staging` still points at the promoted commit
`c2`, not at `c1`: the rollback call `commit(repo, old_branch, dst)` runs
`git checkout origin/{old_branch}` with the unstripped hash as the branch
name, which does not resolve, so the rollback force-push never happens. -/
theorem c1_rollback_leaves_promoted_head :
    revParseOrigin env1.remote "staging" = some "c1\n" ∧
    env1.publishOk = false ∧
    (runMain env1 args1 cfg1).exit = ExitKind.raised ∧
    lookupBranch (runMain env1 args1 cfg1).remote "staging" = some ⟨"c2", ["c2", "c1"]⟩ ∧
    (runMain env1 args1 cfg1).created = none := by
  decide

/-- Claim C2: a "prod" invocation that supplies no explicit bump kind is
claimed to pass the bump-kind validation. With no `--release` flag
argparse fills in the default `"prerelease"`, the guard tests only
truthiness of the value, and the run exits 1 up front, performing no
action: the validation can never be passed for stage "prod". -/
theorem c2_prod_guard_fires_on_default :
    runMain env2 ⟨"prod", "prerelease", false, none, false⟩ cfg2 =
      ⟨.exited 1, env2.remote, none, none⟩ := by
  decide

/-- Claim C3: every command-line invocation with stage "prod" — the
`--release` value is one of the four argparse choices, `"prerelease"`
when the flag is absent — exits 1 at the bump-kind guard before touching
anything: no branch is pushed, no release is created, no notes file is
written. -/
theorem c3_prod_always_exits_one (env : Env) (cfg : StageConfig)
    (force dryRun : Bool) (rn : Option String) (rel : String)
    (hrel : rel ∈ ["major", "minor", "patch", "prerelease"]) :
    runMain env ⟨"prod", rel, force, rn, dryRun⟩ cfg =
      ⟨.exited 1, env.remote, none, none⟩ := by
  simp only [List.mem_cons, List.not_mem_nil, or_false] at hrel
  rcases hrel with rfl | rfl | rfl | rfl <;> rfl

/-- Witness for claim C3 at a concrete invocation. -/
theorem c3_prod_always_exits_one_witness :
    runMain envW ⟨"prod", "major", false, none, false⟩ cfgW =
      ⟨.exited 1, envW.remote, none, none⟩ :=
  c3_prod_always_exits_one envW cfgW false false none "major" (by decide)

/-- Counterexample for claim C4: the zero version is claimed whenever no
qualifying release exists, but when the release listing is non-empty and
no release qualifies for the stage the listing crashes — `max(versions)`
is applied to an empty list — instead of returning 0.0.0: for releases
`["1.0.0"]` and stage "staging" the result is an uncaught ValueError. -/
theorem c4_no_qualifier_crashes :
    get_current_version ["1.0.0"] "staging" = none ∧
    get_current_version ["1.0.0"] "staging" ≠ some "0.0.0" := by
  decide

/-- Claim C4 (amended): `get_current_version` keeps for "staging" only
releases with an rc-prefixed prerelease label and for "prod" only
releases with no prerelease label, and returns the Python maximum of the
qualifying versions under semantic-version ordering — which is one of the
qualifying versions; the zero version 0.0.0 is returned only when the
release list itself is empty (when releases exist but none qualify, the
listing crashes instead). For releases
`["1.0.0", "1.1.0-rc.0", "1.1.0-rc.1"]` it returns `1.1.0-rc.1` for
staging and `1.0.0` for prod. -/
theorem c4_current_version_filter_and_max :
    get_current_version ["1.0.0", "1.1.0-rc.0", "1.1.0-rc.1"] "staging" = some "1.1.0-rc.1" ∧
    get_current_version ["1.0.0", "1.1.0-rc.0", "1.1.0-rc.1"] "prod" = some "1.0.0" ∧
    (∀ stage : String, get_current_version [] stage = some "0.0.0") ∧
    (∀ (releases : List String) (vs : List VersionInfo) (m : VersionInfo),
      parseAll releases = some vs →
      pymax (vs.filter qualifiesStaging) = some m →
      get_current_version releases "staging" = some (verStr m) ∧
        m ∈ vs.filter qualifiesStaging) ∧
    (∀ (releases : List String) (vs : List VersionInfo) (m : VersionInfo),
      parseAll releases = some vs →
      pymax (vs.filter qualifiesProd) = some m →
      get_current_version releases "prod" = some (verStr m) ∧
        m ∈ vs.filter qualifiesProd) := by
  refine ⟨by decide, by decide, ?_, ?_, ?_⟩
  · intro stage
    unfold get_current_version
    rw [if_neg (fun h => h.1 rfl), if_neg (fun h => h.1 rfl)]
    rfl
  · intro releases vs m hparse hmax
    have hne : releases ≠ [] := by
      rintro rfl
      rw [show parseAll ([] : List String) = some [] from rfl] at hparse
      obtain rfl : ([] : List VersionInfo) = vs := Option.some.inj hparse
      simp [pymax] at hmax
    refine ⟨?_, pymax_mem hmax⟩
    unfold get_current_version
    rw [if_pos ⟨hne, rfl⟩]
    simp only [hparse, hmax]
  · intro releases vs m hparse hmax
    have hne : releases ≠ [] := by
      rintro rfl
      rw [show parseAll ([] : List String) = some [] from rfl] at hparse
      obtain rfl : ([] : List VersionInfo) = vs := Option.some.inj hparse
      simp [pymax] at hmax
    refine ⟨?_, pymax_mem hmax⟩
    unfold get_current_version
    rw [if_neg (fun h => absurd h.2 (by decide)), if_pos ⟨hne, rfl⟩]
    simp only [hparse, hmax]

/-- Witness for claim C4 applying the staging branch of the amended
theorem at a concrete listing. -/
theorem c4_current_version_filter_and_max_witness :
    get_current_version ["2.0.0-rc.1"] "staging" =
        some (verStr ⟨2, 0, 0, some "rc.1", none⟩) ∧
      (⟨2, 0, 0, some "rc.1", none⟩ : VersionInfo) ∈
        ([⟨2, 0, 0, some "rc.1", none⟩] : List VersionInfo).filter qualifiesStaging :=
  c4_current_version_filter_and_max.2.2.2.1 ["2.0.0-rc.1"]
    [⟨2, 0, 0, some "rc.1", none⟩] ⟨2, 0, 0, some "rc.1", none⟩ (by decide) (by decide)

/-- Counterexample for claim C5: a malformed tag is claimed to be skipped
with the maximum taken over the remaining tags, but for releases
`["1.0.0", "not-a-version"]` and stage "prod" the listing fails with an
uncaught ValueError (there is no try/except around `parse_version_info` in
the comprehension) instead of returning 1.0.0. -/
theorem c5_malformed_tag_not_skipped :
    get_current_version ["1.0.0", "not-a-version"] "prod" = none ∧
    get_current_version ["1.0.0", "not-a-version"] "prod" ≠ some "1.0.0" := by
  decide

/-- Claim C5 (amended): one unparseable tag anywhere in a non-empty
release listing aborts `get_current_version` for either stage — the
ValueError escapes the comprehension, no maximum is returned. -/
theorem c5_malformed_tag_aborts_listing
    (releases : List String) (t stage : String)
    (hs : stage = "staging" ∨ stage = "prod")
    (hne : releases ≠ [])
    (ht : t ∈ releases)
    (hp : parse_version_info t = none) :
    get_current_version releases stage = none := by
  have hm : parseAll releases = none := parseAll_none_of_mem ht hp
  rcases hs with rfl | rfl
  · unfold get_current_version
    rw [if_pos ⟨hne, rfl⟩]
    simp only [hm]
  · unfold get_current_version
    rw [if_neg (fun h => absurd h.2 (by decide)), if_pos ⟨hne, rfl⟩]
    simp only [hm]

/-- Witness for claim C5 at a concrete listing with one bad tag. -/
theorem c5_malformed_tag_aborts_listing_witness :
    get_current_version ["1.1.0-rc.0", "v2"] "staging" = none :=
  c5_malformed_tag_aborts_listing ["1.1.0-rc.0", "v2"] "v2" "staging"
    (Or.inl rfl) (by decide) (by decide) (by decide)

/-- Counterexample for claim C6: the automatically attached rc label is
claimed to start at rc.0, but a patch bump of 1.2.0 produces
1.2.1-rc.1 — `semver.bump_prerelease` seeds the missing label with
`rc.0` and then increments it. -/
theorem c6_attach_does_not_start_at_rc0 :
    bump_and_attach "patch" "1.2.0" ≠ some "1.2.1-rc.0" ∧
    bump_and_attach "patch" "1.2.0" = some "1.2.1-rc.1" := by
  decide

/-- Claim C6 (amended): the next non-production version applies the
requested bump and, when the bumped result has no prerelease label,
attaches an rc label starting at rc.1 (the seeded `rc.0` is immediately
incremented): for every version without a prerelease label the attached
label is exactly `rc.1`; a prerelease bump of 1.2.0-rc.0 yields
1.2.0-rc.1 and a patch bump of 1.2.0 yields 1.2.1-rc.1. -/
theorem c6_bump_then_attach_rc1 :
    (∀ (s : String) (v : VersionInfo),
      parse_version_info s = some v → v.prerelease = none →
      bump_prerelease s "rc" = some (verStr ⟨v.major, v.minor, v.patch, some "rc.1", none⟩)) ∧
    bump_and_attach "prerelease" "1.2.0-rc.0" = some "1.2.0-rc.1" ∧
    bump_and_attach "patch" "1.2.0" = some "1.2.1-rc.1" ∧
    bump_and_attach "major" "1.2.0-rc.5" = some "2.0.0-rc.1" ∧
    bump_and_attach "minor" "1.2.3-rc.2" = some "1.3.0-rc.1" ∧
    bump_and_attach "prerelease" "1.0.0-rc.9" = some "1.0.0-rc.10" := by
  refine ⟨?_, by decide, by decide, by decide, by decide, by decide⟩
  intro s v hparse hpre
  unfold bump_prerelease
  rw [hparse]
  simp only [Option.map, hpre]
  have hinc : incrementString ("rc" ++ ".0") = "rc.1" := by decide
  rw [hinc]

/-- Witness for claim C6: attaching to a version with no prerelease gives
exactly rc.1. -/
theorem c6_bump_then_attach_rc1_witness :
    bump_prerelease "3.4.5" "rc" = some (verStr ⟨3, 4, 5, some "rc.1", none⟩) :=
  c6_bump_then_attach_rc1.1 "3.4.5" ⟨3, 4, 5, none, none⟩ (by decide) rfl

/-- Claim C7: when the configured source branch is "prod" (the
finalize-into-production path; the destination names the stage whose
latest prerelease is being finalized, "staging" in the configuration the
spec describes), the next version is `finalize_version` of the current
version for the destination stage — exactly the prerelease label is
stripped, major.minor.patch are kept — and the promotion proceeds when it
differs from the current version: 1.2.0-rc.3 finalizes to 1.2.0. -/
theorem c7_finalize_strips_prerelease :
    (∀ (s : String) (v : VersionInfo), parse_version_info s = some v →
      finalize_version s = some (verStr ⟨v.major, v.minor, v.patch, none, none⟩)) ∧
    finalize_version "1.2.0-rc.3" = some "1.2.0" ∧
    (∀ (releases : List String) (stage release dst cur prv newV : String),
      get_current_version releases stage = some cur →
      get_current_version releases dst = some prv →
      finalize_version prv = some newV →
      cur ≠ newV →
      update_version releases stage release "prod" dst =
        some (UpdateOutcome.upgraded newV)) ∧
    update_version ["1.0.0", "1.2.0-rc.3"] "prod" "" "prod" "staging" =
      some (UpdateOutcome.upgraded "1.2.0") := by
  refine ⟨?_, by decide, ?_, by decide⟩
  · intro s v hparse
    unfold finalize_version
    rw [hparse]
    rfl
  · intro releases stage release dst cur prv newV hcur hprv hfin hne
    unfold update_version
    simp only [hcur]
    rw [if_pos trivial]
    simp only [hprv, hfin]
    rw [if_neg hne]

/-- Witness for claim C7 at a concrete release listing. -/
theorem c7_finalize_strips_prerelease_witness :
    update_version ["1.0.0", "1.3.0-rc.2"] "prod" "prerelease" "prod" "staging" =
      some (UpdateOutcome.upgraded "1.3.0") :=
  c7_finalize_strips_prerelease.2.2.1 ["1.0.0", "1.3.0-rc.2"] "prod" "prerelease"
    "staging" "1.0.0" "1.3.0-rc.2" "1.3.0" (by decide) (by decide) (by decide) (by decide)

/-- Claim C9: whenever `git diff --ignore-submodules=untracked` reports
any change to tracked files, the run exits 1 before any promotion action
— no branch is pushed, no release created, no notes written — and the
`--force` flag (indeed any combination of arguments) does not bypass the
check. -/
theorem c9_dirty_tree_blocks (env : Env) (args : CmdArgs) (cfg : StageConfig)
    (hd : env.workingDiff ≠ "") :
    runMain env args cfg = ⟨.exited 1, env.remote, none, none⟩ := by
  unfold runMain
  by_cases hg : args.stage = "prod" ∧ args.release ≠ ""
  · rw [if_pos hg]
  · rw [if_neg hg, if_pos hd]

/-- Witness for claim C9: a dirty tree blocks a forced staging run. -/
theorem c9_dirty_tree_blocks_witness :
    runMain envDirty argsDry cfgW = ⟨.exited 1, envDirty.remote, none, none⟩ :=
  c9_dirty_tree_blocks envDirty argsDry cfgW (by decide)

/-- Claim C8: a `--dry-run` invocation that makes it past the guard and
the two working-tree/lost-commit checks (so it reaches the notes and
version computation) never mutates the remote — the branches are exactly
the initial ones and no release is created — yet the release notes text
is computed and, when `--release-notes` is given, written to the file. -/
theorem c8_dry_run_no_mutation (env : Env) (args : CmdArgs) (cfg : StageConfig)
    (hdry : args.dryRun = true)
    (hg : ¬(args.stage = "prod" ∧ args.release ≠ ""))
    (hclean : env.workingDiff = "")
    (hdiff : env.headHist.filter (fun c =>
        !c.isMerge &&
        (touchesPathspec c cfg.source || touchesPathspec c ("^" ++ cfg.destination))) = [] ∨
      args.force = true) :
    ∃ ek, runMain env args cfg =
      ⟨ek, env.remote,
       args.releaseNotesPath.map (fun _ => make_release_notes env.rawLog), none⟩ := by
  have hwd : ¬ env.workingDiff ≠ "" := by simp [hclean]
  have hcond : ¬(env.headHist.filter (fun c =>
      !c.isMerge &&
      (touchesPathspec c cfg.source || touchesPathspec c ("^" ++ cfg.destination))) ≠ [] ∧
      args.force = false) := by
    rintro ⟨h1, h2⟩
    rcases hdiff with h | h
    · exact h1 h
    · rw [h] at h2
      cases h2
  unfold runMain
  rw [if_neg hg, if_neg hwd, if_neg hcond]
  cases hu : update_version env.releases args.stage args.release cfg.source cfg.destination with
  | none => exact ⟨.raised, rfl⟩
  | some u =>
    cases u with
    | nothing => exact ⟨.exited 0, rfl⟩
    | upgraded v =>
      rw [hdry]
      exact ⟨.exited 0, rfl⟩

/-- Witness for claim C8: a dry run against `envW` leaves the remote
untouched and writes the notes file. -/
theorem c8_dry_run_no_mutation_witness :
    ∃ ek, runMain envW argsDry cfgW =
      ⟨ek, envW.remote,
       argsDry.releaseNotesPath.map (fun _ => make_release_notes envW.rawLog), none⟩ :=
  c8_dry_run_no_mutation envW argsDry cfgW rfl (by decide) rfl (Or.inl (by decide))

/-- Claim C10: `check_diff` is claimed to compute the commits reachable
from the destination and not from the source, and to exit 1 without
`--force` when that set is non-empty. In `env10` that set is `["c2"]`
(the spec-side `lostCommits`), `--force` is off — yet the run proceeds to
a successful promotion and release, ending with `staging` force-pushed to
`c1` and the commit `c2` discarded: the listing the code actually runs is
`git log ... -- {src} ^{dst}`, where the `--` separator makes the branch
names pathspecs over the HEAD history, so it lists commits touching files
literally named `integration` or `^staging` — none here — rather than any
commit-set difference. -/
theorem c10_lost_commits_not_blocked :
    lostCommits env10.remote "staging" "integration" = ["c2"] ∧
    args10.force = false ∧
    (runMain env10 args10 cfg1).exit = ExitKind.exited 0 ∧
    lookupBranch (runMain env10 args10 cfg1).remote "staging" = some ⟨"c1", ["c1"]⟩ ∧
    (runMain env10 args10 cfg1).created = some "1.1.0-rc.1" := by
  decide

end Promote
